import Mathlib

/-!
Shallow embedding of src/flink-ml-python/pyflink/ml/api.py.

The source file declares five Python classes forming the abstract stage
hierarchy of a machine-learning pipeline framework:
Stage, AlgoOperator, Transformer, Model, Estimator.

Two complementary views are embedded:

1. A typed view: each class becomes a Lean structure whose fields are the
   methods a concrete subclass supplies, with Python calls that can raise
   modelled as Except PyException.  Python None is modelled by Option none
   where a body can return it.

2. A declaration-table view: the classes, their base lists and their method
   declarations (including which carry the abstractmethod and classmethod
   decorators) become data, and the ABC rules for abstract-method
   resolution and instantiability are computed over that data.
-/

namespace FlinkML

/-- Opaque handle to a table of the external execution engine
(pyflink.table.Table); this layer never looks inside it. -/
structure Table where
  id : Nat
deriving DecidableEq, Repr

/-- Opaque handle to the execution environment passed to load
(pyflink.table.StreamTableEnvironment). -/
structure StreamTableEnvironment where
  id : Nat
deriving DecidableEq, Repr

/-- A raised Python exception: the name of its class and its message.
The source raises bare Exception values, so the class field records
which exception class was used. -/
structure PyException where
  cls : String
  msg : String
deriving DecidableEq, Repr

/-- The exception raised by the default Model.set_model_data and
Model.get_model_data bodies in api.py:
raise Exception of the message This operation is not supported. -/
def unsupportedError : PyException :=
  { cls := "Exception", msg := "This operation is not supported." }

/-- Typed view of class Stage: the two methods a concrete subclass must
implement.  save writes to a path and returns no value; load is a
class-level factory taking the environment handle and a path and
producing an instance of the stage type T. -/
structure Stage (T : Type) where
  save : String → Except PyException Unit
  load : StreamTableEnvironment → String → Except PyException T

/-- Typed view of class AlgoOperator(Stage[T], ABC): adds transform,
taking a variable-length list of input tables and returning a list of
output tables. -/
structure AlgoOperator (T : Type) extends Stage T where
  transform : List Table → Except PyException (List Table)

/-- Typed view of class Transformer(AlgoOperator[T], ABC): declares no
method of its own. -/
structure Transformer (T : Type) extends AlgoOperator T

/-- Typed view of class Model(Transformer[T], ABC): declares no abstract
method of its own; its two concrete methods are the defaults below. -/
structure Model (T : Type) extends Transformer T

/-- Default body of Model.set_model_data in api.py: it ignores self and
the inputs and raises Exception with the unsupported-operation message.
Its annotated result type is Model. -/
def Model.set_model_data {T : Type} (self : Model T) (inputs : List Table) :
    Except PyException (Model T) :=
  Except.error unsupportedError

/-- Default body of Model.get_model_data in api.py: it ignores self and
raises Exception with the unsupported-operation message.  Its annotated
result type is a list of tables. -/
def Model.get_model_data {T : Type} (self : Model T) :
    Except PyException (List Table) :=
  Except.error unsupportedError

/-- Typed view of class Estimator(Generic[E, M], Stage[E], ABC).  The fit
method carries no abstractmethod decorator in the source and its default
body is pass, which returns Python None; a Python call to fit therefore
yields either None or a Model, modelled as Option (Model M).  The field
default is the inherited body. -/
structure Estimator (E M : Type) extends Stage E where
  fit : List Table → Except PyException (Option (Model M)) :=
    fun _ => Except.ok none

/-- True when a call result is a raised exception rather than a value. -/
def raisesB {α : Type} : Except PyException α → Bool
  | Except.error _ => true
  | Except.ok _ => false

/-- True when a fit result is an actual Model instance (not a raised
exception and not Python None). -/
def returnsModelB {M : Type} : Except PyException (Option (Model M)) → Bool
  | Except.ok (some _) => true
  | _ => false

/-- A concrete stage over T = Unit whose save and load succeed doing
nothing; used to build concrete instances of the hierarchy. -/
def trivialStage : Stage Unit :=
  { save := fun _ => Except.ok ()
    load := fun _ _ => Except.ok () }

/-- A concrete AlgoOperator returning a fixed list of output tables for
every input list. -/
def constOutputOp (outs : List Table) : AlgoOperator Unit :=
  { toStage := trivialStage
    transform := fun _ => Except.ok outs }

/-- A concrete Model over Unit whose transform echoes its inputs. -/
def trivialModel : Model Unit :=
  { toStage := trivialStage
    transform := fun inputs => Except.ok inputs }

/-- A concrete Estimator subclass that implements only save and load and
keeps the inherited default fit body. -/
def defaultFitEstimator : Estimator Unit Unit :=
  { save := fun _ => Except.ok ()
    load := fun _ _ => Except.ok () }

/-- The trivial Estimator of the spec scenario: its fit ignores the
inputs and returns the fixed Model instance m. -/
def withFixedFit {E M : Type} (base : Stage E) (m : Model M) : Estimator E M :=
  { toStage := base
    fit := fun _ => Except.ok (some m) }

/-- The type annotations appearing in the method signatures of api.py. -/
inductive PyTy where
  | noneTy
  | strTy
  | tableTy
  | tableEnvTy
  | listTableTy
  | tyVar (v : String)
  | clsRef (c : String)
  | modelOf (v : String)
deriving DecidableEq, Repr

/-- A method declaration as it appears in a class body: its name, whether
it carries the abstractmethod decorator, whether it carries the
classmethod decorator, its positional parameter annotations after self
or cls, its varargs annotation when it takes star-inputs, and its return
annotation. -/
structure MethodDecl where
  name : String
  isAbstract : Bool
  isClassmethod : Bool
  params : List PyTy
  varargs : Option PyTy
  ret : PyTy
deriving DecidableEq, Repr

/-- A class declaration: its name, its base list as written, its type
parameters, and the methods declared in its own body. -/
structure ClassDecl where
  name : String
  bases : List String
  typeParams : List String
  methods : List MethodDecl
deriving DecidableEq, Repr

/-- class Stage(WithParams[T], ABC) of api.py: declares abstract save and
abstract classmethod load. -/
def stageDecl : ClassDecl :=
  { name := "Stage"
    bases := ["WithParams", "ABC"]
    typeParams := ["T"]
    methods :=
      [ { name := "save", isAbstract := true, isClassmethod := false
          params := [PyTy.strTy], varargs := none, ret := PyTy.noneTy }
      , { name := "load", isAbstract := true, isClassmethod := true
          params := [PyTy.tableEnvTy, PyTy.strTy], varargs := none
          ret := PyTy.tyVar "T" } ] }

/-- class AlgoOperator(Stage[T], ABC) of api.py: declares abstract
transform over star-inputs of tables. -/
def algoOperatorDecl : ClassDecl :=
  { name := "AlgoOperator"
    bases := ["Stage", "ABC"]
    typeParams := ["T"]
    methods :=
      [ { name := "transform", isAbstract := true, isClassmethod := false
          params := [], varargs := some PyTy.tableTy
          ret := PyTy.listTableTy } ] }

/-- class Transformer(AlgoOperator[T], ABC) of api.py: a pass body,
declaring no method. -/
def transformerDecl : ClassDecl :=
  { name := "Transformer"
    bases := ["AlgoOperator", "ABC"]
    typeParams := ["T"]
    methods := [] }

/-- class Model(Transformer[T], ABC) of api.py: declares the concrete
defaults set_model_data and get_model_data. -/
def modelDecl : ClassDecl :=
  { name := "Model"
    bases := ["Transformer", "ABC"]
    typeParams := ["T"]
    methods :=
      [ { name := "set_model_data", isAbstract := false
          isClassmethod := false, params := []
          varargs := some PyTy.tableTy, ret := PyTy.clsRef "Model" }
      , { name := "get_model_data", isAbstract := false
          isClassmethod := false, params := [], varargs := none
          ret := PyTy.listTableTy } ] }

/-- class Estimator(Generic[E, M], Stage[E], ABC) of api.py: declares
fit, which carries no abstractmethod decorator. -/
def estimatorDecl : ClassDecl :=
  { name := "Estimator"
    bases := ["Generic", "Stage", "ABC"]
    typeParams := ["E", "M"]
    methods :=
      [ { name := "fit", isAbstract := false, isClassmethod := false
          params := [], varargs := some PyTy.tableTy
          ret := PyTy.modelOf "M" } ] }

/-- The five classes declared in api.py. -/
def apiClasses : List ClassDecl :=
  [stageDecl, algoOperatorDecl, transformerDecl, modelDecl, estimatorDecl]

/-- Looks a class up in a declaration table by name. -/
def findClassIn (table : List ClassDecl) (n : String) : Option ClassDecl :=
  table.find? (fun c => c.name == n)

/-- The first base of a class that is itself declared in the table;
bases outside the table (WithParams, ABC, Generic) declare none of the
methods considered here. -/
def parentName (table : List ClassDecl) (c : ClassDecl) : Option String :=
  c.bases.find? (fun b => (findClassIn table b).isSome)

/-- Walks the in-table inheritance chain of a class, fuelled by the
table size. -/
def lineageAux (table : List ClassDecl) : Nat → String → List ClassDecl
  | 0, _ => []
  | Nat.succ fuel, n =>
    match findClassIn table n with
    | none => []
    | some c =>
      match parentName table c with
      | none => [c]
      | some p => c :: lineageAux table fuel p

/-- The class followed by its in-table ancestors, most derived first. -/
def lineage (table : List ClassDecl) (n : String) : List ClassDecl :=
  lineageAux table (table.length + 1) n

/-- issubclass over the declaration table: b occurs in the lineage
of a. -/
def isSubclassOf (table : List ClassDecl) (a b : String) : Bool :=
  ((lineage table a).map ClassDecl.name).contains b

/-- Keeps only the first (most derived) declaration of each method
name. -/
def dedupByNameAux (seen : List String) : List MethodDecl → List MethodDecl
  | [] => []
  | m :: rest =>
    if seen.contains m.name then dedupByNameAux seen rest
    else m :: dedupByNameAux (m.name :: seen) rest

/-- The methods callable on instances of a class: every method declared
along its lineage, resolved to the most derived declaration. -/
def resolvedMethods (table : List ClassDecl) (n : String) : List MethodDecl :=
  dedupByNameAux [] (((lineage table n).map ClassDecl.methods).flatten)

/-- The resolved declaration of one method of a class. -/
def methodSig (table : List ClassDecl) (c m : String) : Option MethodDecl :=
  (resolvedMethods table c).find? (fun d => d.name == m)

/-- The names of the methods of a class that remain abstract after
resolution: the ABC machinery blocks instantiation while this list is
nonempty. -/
def abstractMethodNames (table : List ClassDecl) (n : String) : List String :=
  ((resolvedMethods table n).filter MethodDecl.isAbstract).map MethodDecl.name

/-- Whether the ABC machinery lets a class of the table be
instantiated: it is declared and retains no abstract method. -/
def isInstantiable (table : List ClassDecl) (n : String) : Bool :=
  (findClassIn table n).isSome && (abstractMethodNames table n).isEmpty

/-- A hypothetical concrete Estimator subclass that implements only save
and load, never overriding fit. -/
def trivialEstimatorDecl : ClassDecl :=
  { name := "TrivialEstimator"
    bases := ["Estimator"]
    typeParams := []
    methods :=
      [ { name := "save", isAbstract := false, isClassmethod := false
          params := [PyTy.strTy], varargs := none, ret := PyTy.noneTy }
      , { name := "load", isAbstract := false, isClassmethod := true
          params := [PyTy.tableEnvTy, PyTy.strTy], varargs := none
          ret := PyTy.clsRef "TrivialEstimator" } ] }

/-- The api.py classes together with the hypothetical concrete Estimator
subclass. -/
def extendedClasses : List ClassDecl :=
  apiClasses ++ [trivialEstimatorDecl]

/-- Modelled from the spec: no concrete Stage subtype occurs under src
(save and load are abstract in api.py and the persistence mechanism is
out of scope there), so a concrete stage is modelled as a value holding
its configuration, per the spec requirement that every Stage subtype be
reconstructible through a parameterless constructor followed by load. -/
structure SpecStage (C : Type) where
  config : C
deriving DecidableEq, Repr

/-- Modelled from the spec: path-addressed external storage, a map from
paths to persisted stage configurations. -/
def SpecStorage (C : Type) : Type :=
  String → Option C

/-- Modelled from the spec: save persists the configuration of the
stage at the given path of the storage and returns no value. -/
def specSave {C : Type} (s : SpecStage C) (path : String)
    (store : SpecStorage C) : SpecStorage C :=
  fun p => if p = path then some s.config else store p

/-- Modelled from the spec: load constructs a fresh instance with the
parameterless constructor and installs the configuration read from the
path, failing when the path holds no stage data. -/
def specLoad {C : Type} (store : SpecStorage C) (path : String) :
    Option (SpecStage C) :=
  match store path with
  | some c => some { config := c }
  | none => none

/-- Claim C1: the spec says fit returns a Model instance typed to the
model-role parameter, and the docstring of fit in api.py promises a
Model; but the declared body of fit is pass with no abstractmethod
decorator, so on a concrete Estimator subclass that implements only
save and load (instantiable, see the C10 theorem), calling fit returns
Python None and not a Model.  The trivial Estimator of the spec
scenario, whose fit ignores inputs and returns the fixed Model m, does
return exactly m on every input list. -/
theorem C1_fit_default_returns_none_fixed_fit_returns_model :
    defaultFitEstimator.fit [] = Except.ok none ∧
    returnsModelB (defaultFitEstimator.fit []) = false ∧
    (∀ (E M : Type) (base : Stage E) (m : Model M) (inputs : List Table),
      (withFixedFit base m).fit inputs = Except.ok (some m) ∧
      returnsModelB ((withFixedFit base m).fit inputs) = true) :=
  ⟨rfl, rfl, fun _ _ _ _ _ => ⟨rfl, rfl⟩⟩

/-- Claim C2: on the default Model implementation, set_model_data with
any input list (the empty one included) raises the Exception carrying
the message This operation is not supported, and yields no value. -/
theorem C2_set_model_data_unsupported {T : Type} (self : Model T)
    (inputs : List Table) :
    Model.set_model_data self inputs = Except.error unsupportedError ∧
    raisesB (Model.set_model_data self inputs) = true ∧
    unsupportedError.msg = "This operation is not supported." :=
  ⟨rfl, rfl, rfl⟩

/-- Claim C3: on the default Model implementation, get_model_data raises
the Exception carrying the message This operation is not supported, and
yields no value. -/
theorem C3_get_model_data_unsupported {T : Type} (self : Model T) :
    Model.get_model_data self = Except.error unsupportedError ∧
    raisesB (Model.get_model_data self) = true ∧
    unsupportedError.msg = "This operation is not supported." :=
  ⟨rfl, rfl, rfl⟩

/-- Claim C4: the subtype chain Model, Transformer, AlgoOperator, Stage
holds: in the declaration table Model is a subclass of each of the
three, and in the typed view every Model projects to a Transformer, an
AlgoOperator and a Stage that carry the very same methods, so a Model
is usable wherever any of those roles is expected. -/
theorem C4_model_substitutability :
    (∀ (T : Type) (m : Model T),
      m.toTransformer.transform = m.transform ∧
      m.toTransformer.toAlgoOperator.transform = m.transform ∧
      m.toTransformer.toAlgoOperator.toStage.save = m.save ∧
      m.toTransformer.toAlgoOperator.toStage.load = m.load) ∧
    isSubclassOf apiClasses "Model" "Transformer" = true ∧
    isSubclassOf apiClasses "Transformer" "AlgoOperator" = true ∧
    isSubclassOf apiClasses "AlgoOperator" "Stage" = true ∧
    isSubclassOf apiClasses "Model" "AlgoOperator" = true ∧
    isSubclassOf apiClasses "Model" "Stage" = true :=
  ⟨fun _ m => ⟨rfl, rfl, rfl, rfl⟩, by decide, by decide, by decide,
    by decide, by decide⟩

/-- Claim C5: over the spec-modelled persistence layer, constructing a
stage with the parameterless constructor and loading from a path
previously written by save yields a stage whose configuration equals
the configuration of the original stage. -/
theorem C5_save_load_round_trip {C : Type} (s : SpecStage C) (path : String)
    (store : SpecStorage C) :
    (specLoad (specSave s path store) path).map SpecStage.config =
      some s.config := by
  simp [specLoad, specSave]

/-- Claim C6: transform accepts any number of input tables, zero
included, and may return any number of output tables, zero included:
for every pair of cardinalities some AlgoOperator maps an input list of
the first length to an output list of the second. -/
theorem C6_transform_cardinality_unconstrained (n m : Nat) :
    ∃ (a : AlgoOperator Unit) (inputs outputs : List Table),
      inputs.length = n ∧
      a.transform inputs = Except.ok outputs ∧
      outputs.length = m := by
  refine ⟨constOutputOp (List.replicate m ⟨0⟩), List.replicate n ⟨0⟩,
    List.replicate m ⟨0⟩, ?_, rfl, ?_⟩ <;> simp

/-- Claim C7: Stage declares exactly the two methods save and load, both
abstract; save is an instance method taking a path string and returning
None, and load is a classmethod taking the environment handle and a
path and returning the type variable of the class, that is, an instance
of the calling type. -/
theorem C7_stage_contributes_save_load :
    stageDecl.methods.map MethodDecl.name = ["save", "load"] ∧
    stageDecl.methods.all MethodDecl.isAbstract = true ∧
    (resolvedMethods apiClasses "Stage").map MethodDecl.name =
      ["save", "load"] ∧
    (methodSig apiClasses "Stage" "save").map MethodDecl.isClassmethod =
      some false ∧
    (methodSig apiClasses "Stage" "save").map MethodDecl.params =
      some [PyTy.strTy] ∧
    (methodSig apiClasses "Stage" "save").map MethodDecl.ret =
      some PyTy.noneTy ∧
    (methodSig apiClasses "Stage" "load").map MethodDecl.isClassmethod =
      some true ∧
    (methodSig apiClasses "Stage" "load").map MethodDecl.params =
      some [PyTy.tableEnvTy, PyTy.strTy] ∧
    (methodSig apiClasses "Stage" "load").map MethodDecl.ret =
      some (PyTy.tyVar "T") ∧
    stageDecl.typeParams = ["T"] := by
  decide

/-- Claim C8: Transformer declares no method of its own, and the
resolved method set callable on a Transformer coincides, declaration
for declaration, with the one callable on an AlgoOperator. -/
theorem C8_transformer_adds_no_operation :
    transformerDecl.methods = [] ∧
    resolvedMethods apiClasses "Transformer" =
      resolvedMethods apiClasses "AlgoOperator" ∧
    abstractMethodNames apiClasses "Transformer" =
      abstractMethodNames apiClasses "AlgoOperator" := by
  decide

/-- Claim C9: the failure raised by the default set_model_data and
get_model_data is one and the same bare Exception value of class
Exception with exactly the message This operation is not supported; its
class coincides with the class of any other generic Exception whatever
its message, so a caller cannot tell the capability gap apart by
exception class alone. -/
theorem C9_bare_generic_exception {T : Type} (self : Model T)
    (inputs : List Table) :
    Model.set_model_data self inputs = Except.error unsupportedError ∧
    Model.get_model_data self = Except.error unsupportedError ∧
    unsupportedError.cls = "Exception" ∧
    unsupportedError.msg = "This operation is not supported." ∧
    (∀ msg2 : String,
      (PyException.mk "Exception" msg2).cls = unsupportedError.cls) :=
  ⟨rfl, rfl, rfl, rfl, fun _ => rfl⟩

/-- Claim C10: every one of the five declared classes retains at least
one abstract method (save and load everywhere, transform additionally
on AlgoOperator, Transformer and Model) and none is instantiable; fit
is not abstract on Estimator, so the concrete subclass that implements
only save and load is instantiable while never overriding fit. -/
theorem C10_abstractness_and_instantiability :
    abstractMethodNames apiClasses "Stage" = ["save", "load"] ∧
    abstractMethodNames apiClasses "AlgoOperator" =
      ["transform", "save", "load"] ∧
    abstractMethodNames apiClasses "Transformer" =
      ["transform", "save", "load"] ∧
    abstractMethodNames apiClasses "Model" =
      ["transform", "save", "load"] ∧
    abstractMethodNames apiClasses "Estimator" = ["save", "load"] ∧
    isInstantiable apiClasses "Stage" = false ∧
    isInstantiable apiClasses "AlgoOperator" = false ∧
    isInstantiable apiClasses "Transformer" = false ∧
    isInstantiable apiClasses "Model" = false ∧
    isInstantiable apiClasses "Estimator" = false ∧
    (methodSig apiClasses "Estimator" "fit").map MethodDecl.isAbstract =
      some false ∧
    trivialEstimatorDecl.methods.map MethodDecl.name = ["save", "load"] ∧
    isInstantiable extendedClasses "TrivialEstimator" = true ∧
    (methodSig extendedClasses "TrivialEstimator" "fit").map
      MethodDecl.isAbstract = some false := by
  decide

end FlinkML
